import Mathlib

/-!
# Verification of the BYTEzinho backend (src/backend/app.py)

Shallow embedding of the backend's logic in Lean 4:

* Python's `str.format` on `PROMPT_TEMPLATE` is modelled as a single-pass
  scan of the template (`parseFormat` / `renderFormat`): replacement fields
  come from the template only, and substituted values are inserted literally,
  never re-scanned — matching CPython's formatter.
* The Gemini chat session is modelled as an opaque function
  `String → Except String String`: a prompt goes in, and either a reply text
  comes back (`.ok`) or the call raises an exception carrying a detail
  string (`.error`).
* The filesystem is modelled explicitly: the knowledge file as a
  `FileOpenResult` (content / FileNotFoundError / any other OSError), the
  leads file as an `Option String` (its current content, `none` if absent).
* HTTP endpoint results are inductive outcomes carrying the status code and
  detail string that `HTTPException` would carry, or the JSON body returned
  on success.
* Each endpoint also returns the list of prompts submitted downstream, so
  "no API call is attempted" is the statement that this list is empty.
-/

/-- One piece of a format template: a literal run of characters, or a
replacement field `\x7bname\x7d`. -/
inductive FormatPart where
  | lit (cs : List Char)
  | field (name : List Char)
deriving DecidableEq, Repr

/-- Single-pass parse of a format template into literal runs and replacement
fields, as CPython's `str.format` does. `fuel` bounds the recursion; it is
always called with the length of the character list, which suffices since
every step consumes at least one character. -/
def parseFormat : Nat → List Char → List FormatPart
  | 0, cs => [.lit cs]
  | fuel + 1, cs =>
    let pre := cs.takeWhile (fun d => d ≠ '\x7b')
    match cs.dropWhile (fun d => d ≠ '\x7b') with
    | [] => [.lit pre]
    | _ :: rest =>
      let name := rest.takeWhile (fun d => d ≠ '\x7d')
      let rest2 := (rest.dropWhile (fun d => d ≠ '\x7d')).drop 1
      .lit pre :: .field name :: parseFormat fuel rest2

/-- Render a parsed template, substituting each field's value literally.
Values are emitted as-is and never re-scanned for replacement fields. -/
def renderFormat (vals : List Char → List Char) : List FormatPart → List Char
  | [] => []
  | .lit cs :: ps => cs ++ renderFormat vals ps
  | .field n :: ps => vals n ++ renderFormat vals ps

/-- Python `template.format(...)` with keyword arguments given by `vals`. -/
def pyFormat (template : String) (vals : List Char → List Char) : String :=
  ⟨renderFormat vals (parseFormat template.data.length template.data)⟩

/-- `PROMPT_TEMPLATE` from src/backend/app.py, verbatim. -/
def PROMPT_TEMPLATE : String :=
  "\nUse o conteúdo abaixo como base para responder a pergunta de forma direta, sem inventar nada que não esteja no texto.\n\n=== BASE DE CONHECIMENTO ===\n{base_conhecimento}\n\n=== PERGUNTA ===\n{pergunta_usuario}\n\nResponda com base apenas no conteúdo da base acima.\n"

/-- The literal text of `PROMPT_TEMPLATE` before the `base_conhecimento`
replacement field. -/
def PROMPT_PRE : String :=
  "\nUse o conteúdo abaixo como base para responder a pergunta de forma direta, sem inventar nada que não esteja no texto.\n\n=== BASE DE CONHECIMENTO ===\n"

/-- The literal text of `PROMPT_TEMPLATE` between the two replacement
fields. -/
def PROMPT_MID : String := "\n\n=== PERGUNTA ===\n"

/-- The literal text of `PROMPT_TEMPLATE` after the `pergunta_usuario`
replacement field. -/
def PROMPT_SUF : String := "\n\nResponda com base apenas no conteúdo da base acima.\n"

/-- The keyword arguments passed to `PROMPT_TEMPLATE.format` in
`responder_com_gemini`. -/
def promptVals (base_conhecimento pergunta_usuario : String) (name : List Char) : List Char :=
  if name = "base_conhecimento".data then base_conhecimento.data
  else if name = "pergunta_usuario".data then pergunta_usuario.data
  else []

/-- `PROMPT_TEMPLATE.format(base_conhecimento=..., pergunta_usuario=...)`. -/
def pyFormatPrompt (base_conhecimento pergunta_usuario : String) : String :=
  pyFormat PROMPT_TEMPLATE (promptVals base_conhecimento pergunta_usuario)

set_option maxRecDepth 40000 in
lemma parseFormat_template :
    parseFormat PROMPT_TEMPLATE.data.length PROMPT_TEMPLATE.data =
      [.lit PROMPT_PRE.data, .field "base_conhecimento".data,
       .lit PROMPT_MID.data, .field "pergunta_usuario".data, .lit PROMPT_SUF.data] := by
  decide

/-- The composed prompt is the fixed template with the knowledge blob and the
question substituted literally. -/
lemma pyFormatPrompt_eq (K Q : String) :
    pyFormatPrompt K Q = PROMPT_PRE ++ K ++ PROMPT_MID ++ Q ++ PROMPT_SUF := by
  show (⟨renderFormat (promptVals K Q)
      (parseFormat PROMPT_TEMPLATE.data.length PROMPT_TEMPLATE.data)⟩ : String) = _
  rw [parseFormat_template]
  apply String.ext
  simp [renderFormat, promptVals]

/-- The Gemini chat session, as the rest of the system consumes it
(`chat.send_message(prompt).text`): an opaque map from the submitted prompt
to either a reply text or a raised exception's detail string. -/
def GeminiSession : Type := String → Except String String

/-- `responder_com_gemini` from src/backend/app.py: builds the prompt by
template substitution, submits it, and strips the reply of leading and
trailing whitespace. An exception from `send_message` propagates (the
`.strip()` is never reached). The second component records the prompts
submitted downstream, so that the theorems can speak about whether the
remote API was called. -/
def responder_com_gemini (chat : GeminiSession)
    (base_conhecimento pergunta_usuario : String) :
    Except String String × List String :=
  let prompt := pyFormatPrompt base_conhecimento pergunta_usuario
  ((chat prompt).map String.trim, [prompt])

/-- Python truthiness of the `chat_session` global (`Optional[ChatSession]`):
`None` is falsy, a session object is always truthy. -/
def pyTruthySession : Option GeminiSession → Bool
  | none => false
  | some _ => true

/-- Python truthiness of the `base_conhecimento` global (`Optional[str]`):
`None` is falsy, and so is the empty string. -/
def pyTruthyOptStr : Option String → Bool
  | none => false
  | some s => !s.isEmpty

/-- Python truthiness of a `str`: falsy exactly when empty. -/
def pyTruthyStr (s : String) : Bool := !s.isEmpty

/-- The JSON body `{'response': ...}` returned by the chat endpoint on
success: it has exactly this one field. -/
structure ChatResponse where
  response : String
deriving DecidableEq, Repr

/-- Result of a request to `POST /chat`: either HTTP 200 with the JSON body,
or an `HTTPException` with a status code and detail string. -/
inductive ChatOutcome where
  | ok (body : ChatResponse)
  | httpError (status : Nat) (detail : String)
deriving DecidableEq, Repr

/-- Detail string of the 503 raised when the service is degraded. -/
def chatDetail503 : String := "Desculpe, o chatbot não está disponível no momento."

/-- Detail string of the 400 raised on an empty message. -/
def chatDetail400 : String := "A mensagem não pode ser vazia."

/-- Detail string of the 500 raised when the downstream call fails. -/
def chatDetail500 : String := "Ocorreu um erro ao processar sua mensagem."

/-- The `chat` endpoint handler from src/backend/app.py, over the globals
`chat_session` and `base_conhecimento`. Mirrors the source line by line:
`if not chat_session or not base_conhecimento` → 503;
`if not user_message` → 400; otherwise call `responder_com_gemini` inside
`try`, returning `{'response': bot_response}` on success and a generic 500
on any exception. The second component is the list of prompts submitted
downstream ( `[]` = no API call attempted). The final catch-all branch is
unreachable: the 503 guard already ruled out `none` in either global. -/
def chat (chat_session : Option GeminiSession) (base_conhecimento : Option String)
    (message : String) : ChatOutcome × List String :=
  if !pyTruthySession chat_session || !pyTruthyOptStr base_conhecimento then
    (.httpError 503 chatDetail503, [])
  else if !pyTruthyStr message then
    (.httpError 400 chatDetail400, [])
  else
    match chat_session, base_conhecimento with
    | some f, some k =>
      match responder_com_gemini f k message with
      | (.ok t, log) => (.ok ⟨t⟩, log)
      | (.error _, log) => (.httpError 500 chatDetail500, log)
    | _, _ => (.httpError 503 chatDetail503, [])

/-- What `open(caminho, "r", encoding="utf-8")` followed by `f.read()` can do
for a given path: yield the file's text, raise `FileNotFoundError`, or raise
some other exception (e.g. `PermissionError`, `IsADirectoryError`,
`UnicodeDecodeError`) carrying a detail string. -/
inductive FileOpenResult where
  | content (s : String)
  | fileNotFound
  | otherError (e : String)
deriving DecidableEq, Repr

/-- `carregar_conhecimento` from src/backend/app.py: returns the file's full
text as-is; the `except FileNotFoundError` clause turns exactly that one
exception into a logged `None`; any other exception propagates uncaught
(modelled as `.error`). -/
def carregar_conhecimento (r : FileOpenResult) : Except String (Option String) :=
  match r with
  | .content s => Except.ok (some s)
  | .fileNotFound => Except.ok none
  | .otherError e => Except.error e

/-- The `Lead` pydantic model from src/backend/app.py: `name: str` (any
string, pydantic imposes no non-emptiness constraint) and `email: EmailStr`. -/
structure Lead where
  name : String
  email : String
deriving DecidableEq, Repr

/-- Modelled from the spec: pydantic's `EmailStr` delegates to the external
`email-validator` dependency, which is not part of this repository's sources;
per the spec it accepts strings matching standard email-address grammar.
Simplified here: exactly one `@`, non-empty local part, non-empty domain
containing a dot but not starting or ending with one, and no whitespace. -/
def emailValid (s : String) : Bool :=
  let cs := s.data
  let localPart := cs.takeWhile (fun c => c ≠ '@')
  let domain := (cs.dropWhile (fun c => c ≠ '@')).drop 1
  (cs.count '@' == 1) && !localPart.isEmpty && !domain.isEmpty &&
  domain.contains '.' && !(cs.any Char.isWhitespace) &&
  domain.head? ≠ some '.' && domain.getLast? ≠ some '.'

/-- Pydantic validation of a `POST /leads` body whose `name` and `email`
fields are strings: `name: str` accepts every string (including the empty
one); `email: EmailStr` must pass the email grammar. `none` means the
validation layer rejects the request with a 422 before the handler runs. -/
def lead_validate (name email : String) : Option Lead :=
  if emailValid email then some ⟨name, email⟩ else none

/-- The line `f"Nome: \x7blead.name\x7d, Email: \x7blead.email\x7d\n"`
written for one lead. -/
def leadLine (l : Lead) : String :=
  "Nome: " ++ l.name ++ ", Email: " ++ l.email ++ "\n"

/-- Result of a request to `POST /leads`: HTTP 200 with the
`{"status": ..., "message": ...}` body, or an `HTTPException`. -/
inductive LeadsOutcome where
  | ok (status message : String)
  | httpError (code : Nat) (detail : String)
deriving DecidableEq, Repr

/-- `capturar_lead` from src/backend/app.py, over the current content of
`leads.txt` (`none` = the file does not exist). Opening in mode `"a"`
creates the file if absent and appends; `ioError` stands for an exception
raised by the filesystem during the write (`none` = the write succeeds),
which the handler converts to a 500. -/
def capturar_lead (lead : Lead) (leadsFile : Option String) (ioError : Option String) :
    LeadsOutcome × Option String :=
  match ioError with
  | some _ => (.httpError 500 "Falha ao salvar o lead.", leadsFile)
  | none => (.ok "success" "Lead recebido com sucesso!",
             some (leadsFile.getD "" ++ leadLine lead))

/-- A full `POST /leads` request: pydantic validation, then the handler. -/
def post_leads (name email : String) (leadsFile : Option String) (ioError : Option String) :
    LeadsOutcome × Option String :=
  match lead_validate name email with
  | none => (.httpError 422 "validation error", leadsFile)
  | some l => capturar_lead l leadsFile ioError

lemma isEmpty_false_of_ne (s : String) (h : s ≠ "") : s.isEmpty = false := by
  cases hs : s.isEmpty
  · rfl
  · exact absurd ((String.isEmpty_iff s).mp hs) h

/-- C1: for every well-formed chat request, when the chat session is present
and the knowledge blob is present (and non-empty, i.e. the availability check
passes), the chat endpoint returns 200 with a body consisting of exactly the
one field `response`, whose value is the text the downstream session returned
for the composed prompt, trimmed of leading and trailing whitespace. -/
theorem chat_success (f : GeminiSession) (k msg t : String)
    (hk : k ≠ "") (hmsg : msg ≠ "")
    (hf : f (pyFormatPrompt k msg) = Except.ok t) :
    chat (some f) (some k) msg = (.ok ⟨t.trim⟩, [pyFormatPrompt k msg]) := by
  have hk' := isEmpty_false_of_ne k hk
  have hm' := isEmpty_false_of_ne msg hmsg
  simp [chat, pyTruthySession, pyTruthyOptStr, pyTruthyStr, hk', hm',
    responder_com_gemini, hf, Except.map]

/-- Witness for C1 at a concrete input: the downstream session replies
`" Olá! "` and the endpoint returns `{'response': " Olá! ".trim}`. -/
theorem chat_success_witness :
    ("K" : String) ≠ "" ∧ ("oi" : String) ≠ "" ∧
    (fun _ => Except.ok " Olá! " : GeminiSession) (pyFormatPrompt "K" "oi") =
      Except.ok " Olá! " ∧
    chat (some fun _ => Except.ok " Olá! ") (some "K") "oi" =
      (.ok ⟨" Olá! ".trim⟩, [pyFormatPrompt "K" "oi"]) :=
  ⟨by decide, by decide, rfl,
    chat_success (fun _ => Except.ok " Olá! ") "K" "oi" " Olá! "
      (by decide) (by decide) rfl⟩

/-- C2: whenever the chat session handle or the knowledge blob is absent, the
chat endpoint responds 503 immediately and no downstream call is attempted
(the submitted-prompt log is empty), for every message — including the empty
one, so the availability check precedes the empty-message check and there is
no partial-availability path. -/
theorem chat_unavailable_refuses (sess : Option GeminiSession) (base : Option String)
    (msg : String) (h : sess = none ∨ base = none) :
    chat sess base msg = (.httpError 503 chatDetail503, []) := by
  rcases h with h | h <;> subst h <;>
    simp [chat, pyTruthySession, pyTruthyOptStr]

/-- Witness for C2 at a concrete input: session absent, blob present, empty
message — refused with 503, not 400, and no prompt submitted. -/
theorem chat_unavailable_refuses_witness :
    ((none : Option GeminiSession) = none ∨ (some "K" : Option String) = none) ∧
    chat none (some "K") "" = (.httpError 503 chatDetail503, []) :=
  ⟨Or.inl rfl, chat_unavailable_refuses none (some "K") "" (Or.inl rfl)⟩

/-- C3: a successful `POST /leads` with a lead accepted by validation
returns 200 and appends exactly the line `Nome: <name>, Email: <email>\n`
to the lead file, preserving all prior content and creating the file if
absent; calling twice with the same lead yields the line twice. -/
theorem post_leads_appends (name email : String) (leadsFile : Option String)
    (hemail : emailValid email = true) :
    post_leads name email leadsFile none =
      (.ok "success" "Lead recebido com sucesso!",
        some (leadsFile.getD "" ++ leadLine ⟨name, email⟩)) ∧
    (post_leads name email (post_leads name email leadsFile none).2 none).2 =
      some (leadsFile.getD "" ++ leadLine ⟨name, email⟩ ++ leadLine ⟨name, email⟩) := by
  simp [post_leads, lead_validate, hemail, capturar_lead, String.append_assoc]

/-- Witness for C3 at a concrete input: lead Ana / ana@example.com appended
to a file holding `prior\n`, twice. -/
theorem post_leads_appends_witness :
    emailValid "ana@example.com" = true ∧
    (post_leads "Ana" "ana@example.com" (some "prior\n") none =
      (.ok "success" "Lead recebido com sucesso!",
        some ((some "prior\n" : Option String).getD "" ++
          leadLine ⟨"Ana", "ana@example.com"⟩)) ∧
    (post_leads "Ana" "ana@example.com"
        (post_leads "Ana" "ana@example.com" (some "prior\n") none).2 none).2 =
      some ((some "prior\n" : Option String).getD "" ++
        leadLine ⟨"Ana", "ana@example.com"⟩ ++ leadLine ⟨"Ana", "ana@example.com"⟩)) :=
  ⟨by decide, post_leads_appends "Ana" "ana@example.com" (some "prior\n") (by decide)⟩

/-- C4: prompt composition is a pure function of the knowledge blob and the
question: for every `K` and `Q` the submitted prompt is the fixed template
with `K` and `Q` inserted by literal substitution — so it contains both
verbatim, with no escaping, length limiting or truncation. -/
theorem prompt_composition_literal (K Q : String) :
    pyFormatPrompt K Q = PROMPT_PRE ++ K ++ PROMPT_MID ++ Q ++ PROMPT_SUF :=
  pyFormatPrompt_eq K Q

/-- Counterexample to C5 as stated: the loader's `except` clause catches only
`FileNotFoundError`, so when the file cannot be opened for another reason
(here a permission error) the exception propagates uncaught instead of the
absent value the claim promises. -/
theorem carregar_conhecimento_permission_raises :
    carregar_conhecimento (.otherError "PermissionError: Permission denied") =
      Except.error "PermissionError: Permission denied" ∧
    carregar_conhecimento (.otherError "PermissionError: Permission denied") ≠
      Except.ok none :=
  ⟨rfl, by simp [carregar_conhecimento]⟩

/-- C5 as amended: the loader fails softly exactly on `FileNotFoundError`
(returning the absent value); on success it returns the file's full text
as-is, with no parsing or validation; any other exception while opening or
reading propagates uncaught. -/
theorem carregar_conhecimento_spec :
    (∀ s, carregar_conhecimento (.content s) = Except.ok (some s)) ∧
    carregar_conhecimento .fileNotFound = Except.ok none ∧
    (∀ e, carregar_conhecimento (.otherError e) = Except.error e) :=
  ⟨fun _ => rfl, rfl, fun _ => rfl⟩

/-- Counterexample to C6 as stated: a request whose `name` is the empty
string — not a non-empty string — is nevertheless accepted by validation
(`name: str` imposes no non-emptiness), reaches the handler, returns 200 and
appends to the lead file, instead of the 422-with-unchanged-file the claim
promises. -/
theorem post_leads_empty_name_accepted :
    post_leads "" "ana@example.com" (some "prior\n") none =
      (.ok "success" "Lead recebido com sucesso!",
        some "prior\nNome: , Email: ana@example.com\n") := rfl

/-- C6 as amended: a request whose email does not match the email-address
grammar is rejected by validation with a 422 before the handler runs, and
the lead file is unchanged; the `name` field is validated only as being a
string, so an empty-string name is accepted, not rejected. -/
theorem post_leads_invalid_email_rejected (name email : String)
    (leadsFile ioError : Option String) (h : emailValid email = false) :
    post_leads name email leadsFile ioError =
      (.httpError 422 "validation error", leadsFile) := by
  simp [post_leads, lead_validate, h]

/-- Witness for the amended C6 at a concrete input: `not-an-email` is
rejected with 422 and the file keeps its content. -/
theorem post_leads_invalid_email_rejected_witness :
    emailValid "not-an-email" = false ∧
    post_leads "Ana" "not-an-email" (some "x") none =
      (.httpError 422 "validation error", some "x") :=
  ⟨by decide,
    post_leads_invalid_email_rejected "Ana" "not-an-email" (some "x") none (by decide)⟩

/-- C7: when the service is available (session present, blob non-empty), a
chat request with the empty message is answered 400 and the downstream
session is never invoked (the submitted-prompt log is empty). -/
theorem chat_empty_message_400 (f : GeminiSession) (k : String) (hk : k ≠ "") :
    chat (some f) (some k) "" = (.httpError 400 chatDetail400, []) := by
  have hk' := isEmpty_false_of_ne k hk
  have h0 : ("" : String).isEmpty = true := rfl
  simp [chat, pyTruthySession, pyTruthyOptStr, pyTruthyStr, hk', h0]

/-- Witness for C7 at a concrete input. -/
theorem chat_empty_message_400_witness :
    ("K" : String) ≠ "" ∧
    chat (some fun _ => Except.ok "x") (some "K") "" =
      (.httpError 400 chatDetail400, []) :=
  ⟨by decide, chat_empty_message_400 (fun _ => Except.ok "x") "K" (by decide)⟩

/-- Counterexample to C8 as stated: when the downstream call raises an
exception whose detail is `"erro"`, the endpoint's 500 detail string
(`"Ocorreu um erro ao processar sua mensagem."`) does contain the original
error's detail as a substring, so "the detail string does not contain the
original error's detail" fails at this input. -/
theorem chat_error_detail_contains :
    (chat (some fun _ => Except.error "erro") (some "K") "oi").1 =
      ChatOutcome.httpError 500 chatDetail500 ∧
    ∃ a b : String, chatDetail500 = a ++ "erro" ++ b :=
  ⟨rfl, ⟨"Ocorreu um ", " ao processar sua mensagem.", rfl⟩⟩

/-- C8 as amended: every exception raised by the downstream call is caught
and converted to a 500 whose detail is the fixed generic string
`"Ocorreu um erro ao processar sua mensagem."`, independent of the original
error's detail; the exception is never propagated uncaught (the endpoint
always returns an HTTP outcome). -/
theorem chat_downstream_error_opaque (f : GeminiSession) (k msg e : String)
    (hk : k ≠ "") (hmsg : msg ≠ "")
    (hf : f (pyFormatPrompt k msg) = Except.error e) :
    chat (some f) (some k) msg =
      (.httpError 500 chatDetail500, [pyFormatPrompt k msg]) := by
  have hk' := isEmpty_false_of_ne k hk
  have hm' := isEmpty_false_of_ne msg hmsg
  simp [chat, pyTruthySession, pyTruthyOptStr, pyTruthyStr, hk', hm',
    responder_com_gemini, hf, Except.map]

/-- Witness for the amended C8 at a concrete input: a quota-exceeded
exception is converted to the opaque 500. -/
theorem chat_downstream_error_opaque_witness :
    ("K" : String) ≠ "" ∧ ("oi" : String) ≠ "" ∧
    (fun _ => Except.error "quota exceeded" : GeminiSession) (pyFormatPrompt "K" "oi") =
      Except.error "quota exceeded" ∧
    chat (some fun _ => Except.error "quota exceeded") (some "K") "oi" =
      (.httpError 500 chatDetail500, [pyFormatPrompt "K" "oi"]) :=
  ⟨by decide, by decide, rfl,
    chat_downstream_error_opaque (fun _ => Except.error "quota exceeded") "K" "oi"
      "quota exceeded" (by decide) (by decide) rfl⟩

/-- C9: when the knowledge file exists but holds the empty string, every chat
request is refused with the same 503 as when the blob is absent, with no
downstream call — the availability check tests Python truthiness, so an
empty blob is indistinguishable from an absent one at the chat endpoint. -/
theorem chat_empty_blob_503 (f : GeminiSession) (msg : String) :
    chat (some f) (some "") msg = (.httpError 503 chatDetail503, []) ∧
    chat (some f) (some "") msg = chat (some f) none msg := by
  have h0 : ("" : String).isEmpty = true := rfl
  constructor <;> simp [chat, pyTruthySession, pyTruthyOptStr, h0]

/-- C10: a whitespace-only (hence non-empty) message passes the
empty-message check: it is forwarded downstream verbatim inside the composed
prompt, and the outcome is never the 400 client error. -/
theorem chat_whitespace_forwarded (f : GeminiSession) (k msg : String)
    (hk : k ≠ "") (hmsg : msg ≠ "")
    (hws : msg.data.all Char.isWhitespace = true) :
    (chat (some f) (some k) msg).2 =
      [PROMPT_PRE ++ k ++ PROMPT_MID ++ msg ++ PROMPT_SUF] ∧
    ∀ d, (chat (some f) (some k) msg).1 ≠ ChatOutcome.httpError 400 d := by
  have hk' := isEmpty_false_of_ne k hk
  have hm' := isEmpty_false_of_ne msg hmsg
  rw [show PROMPT_PRE ++ k ++ PROMPT_MID ++ msg ++ PROMPT_SUF = pyFormatPrompt k msg from
    (pyFormatPrompt_eq k msg).symm]
  rcases hfp : f (pyFormatPrompt k msg) with e | t <;>
    simp [chat, pyTruthySession, pyTruthyOptStr, pyTruthyStr, hk', hm',
      responder_com_gemini, hfp, Except.map]

/-- Witness for C10 at a concrete input: the single-space message `" "` is
forwarded downstream, not rejected. -/
theorem chat_whitespace_forwarded_witness :
    ("K" : String) ≠ "" ∧ (" " : String) ≠ "" ∧
    (" " : String).data.all Char.isWhitespace = true ∧
    ((chat (some fun _ => Except.ok "x") (some "K") " ").2 =
      [PROMPT_PRE ++ "K" ++ PROMPT_MID ++ " " ++ PROMPT_SUF] ∧
    ∀ d, (chat (some fun _ => Except.ok "x") (some "K") " ").1 ≠
      ChatOutcome.httpError 400 d) :=
  ⟨by decide, by decide, by decide,
    chat_whitespace_forwarded (fun _ => Except.ok "x") "K" " "
      (by decide) (by decide) (by decide)⟩
